import Mathlib

/-!
Shallow embedding of the core of the `stellar-stm32-tools` VSCode extension:
the MCU parameter table, the project-configuration store (load / merge /
save), the linker-script and startup-file resolvers, and the Makefile
generator, together with proofs of the behavioural properties claimed for
them.  JavaScript strings are modelled as Lean `String`, JavaScript objects
(where dynamic key spreading matters) as `String → Option JSValue`, and the
filesystem / editor environment (file search results, the on-disk
configuration file, the wall clock) as explicit parameters.
-/

namespace Stm32Tools

/-! ## JavaScript string primitives -/

/-- Occurrence test for a character list inside another (needle, haystack):
`csub needle hay = true` iff `needle` occurs contiguously in `hay`. -/
def csub (needle : List Char) : List Char → Bool
  | [] => needle.isEmpty
  | c :: t => needle.isPrefixOf (c :: t) || csub needle t

/-- Model of JavaScript `s.includes(pat)`. -/
def jsIncludes (s pat : String) : Bool := csub pat.data s.data

/-- Model of JavaScript `o || d` for an optional string `o`: the default is
taken when `o` is `null`/`undefined` or the empty string (both falsy). -/
def jsOrStr (o : Option String) (d : String) : String :=
  match o with
  | some s => if s = "" then d else s
  | none => d

/-- ASCII lower-casing, as JavaScript `toLowerCase` on the identifiers used
here (plain ASCII part numbers and file names). -/
def toLowerStr (s : String) : String := ⟨s.data.map Char.toLower⟩

/-- Replacement of the first occurrence only, as JavaScript
`s.replace(pat, rep)` with a plain string (non-global) pattern. -/
def replaceFirstAux (pat rep : List Char) : List Char → List Char
  | [] => []
  | c :: t =>
    if pat.isPrefixOf (c :: t) then rep ++ (c :: t).drop pat.length
    else c :: replaceFirstAux pat rep t

/-- String version of `replaceFirstAux`. -/
def replaceFirst (s pat rep : String) : String :=
  ⟨replaceFirstAux pat.data rep.data s.data⟩

/-- Characters of the component after the last `/` of a path. -/
def lastComponent (cur : List Char) : List Char → List Char
  | [] => cur.reverse
  | c :: t => if c = '/' then lastComponent [] t else lastComponent (c :: cur) t

/-- Model of Node `path.basename` for the forward-slash paths used by the
extension: the component after the last `/`. -/
def basename (f : String) : String := ⟨lastComponent [] f.data⟩

/-- Body of `jsDedup`, keeping a list of already-seen elements. -/
def jsDedupAux (seen : List String) : List String → List String
  | [] => []
  | x :: t => if seen.contains x then jsDedupAux seen t
              else x :: jsDedupAux (x :: seen) t

/-- Model of `[...new Set(files)]`: removes duplicates keeping the first
occurrence of each element, in order. -/
def jsDedup (l : List String) : List String := jsDedupAux [] l

/-! ## MCU parameter table (`ConfigManager.getMCUParams`) -/

/-- Compiler/assembler parameter set derived from an MCU part number
(`cpu`, `fpu`, `floatAbi`, startup-file base name, preprocessor define,
series code). -/
structure MCUParams where
  cpu : String
  fpu : String
  floatAbi : String
  startupFile : String
  define : String
  series : String
deriving DecidableEq, Repr

/-- Parameter entry returned for part numbers containing `STM32F407`; also
the fixed fallback entry of `getMCUParams`. -/
def paramsF407 : MCUParams :=
  ⟨"-mcpu=cortex-m4", "-mfpu=fpv4-sp-d16", "-mfloat-abi=hard",
    "startup_stm32f407xx", "STM32F407xx", "f4"⟩

/-- Parameter entry for part numbers containing `STM32F401`. -/
def paramsF401 : MCUParams :=
  ⟨"-mcpu=cortex-m4", "-mfpu=fpv4-sp-d16", "-mfloat-abi=hard",
    "startup_stm32f401xx", "STM32F401xx", "f4"⟩

/-- Parameter entry for part numbers containing `STM32F411`. -/
def paramsF411 : MCUParams :=
  ⟨"-mcpu=cortex-m4", "-mfpu=fpv4-sp-d16", "-mfloat-abi=hard",
    "startup_stm32f411xe", "STM32F411xE", "f4"⟩

/-- Parameter entry for part numbers containing `STM32F103`. -/
def paramsF103 : MCUParams :=
  ⟨"-mcpu=cortex-m3", "", "", "startup_stm32f103xe", "STM32F103xE", "f1"⟩

/-- Parameter entry for part numbers containing `STM32F303`. -/
def paramsF303 : MCUParams :=
  ⟨"-mcpu=cortex-m4", "-mfpu=fpv4-sp-d16", "-mfloat-abi=hard",
    "startup_stm32f303xc", "STM32F303xC", "f3"⟩

/-- Parameter entry for part numbers containing `STM32F030`. -/
def paramsF030 : MCUParams :=
  ⟨"-mcpu=cortex-m0", "", "", "startup_stm32f030x8", "STM32F030x8", "f0"⟩

/-- Parameter entry for part numbers containing `STM32G0`. -/
def paramsG0 : MCUParams :=
  ⟨"-mcpu=cortex-m0plus", "", "", "startup_stm32g071xx", "STM32G071xx", "g0"⟩

/-- Parameter entry for part numbers containing `STM32L4`. -/
def paramsL4 : MCUParams :=
  ⟨"-mcpu=cortex-m4", "-mfpu=fpv4-sp-d16", "-mfloat-abi=hard",
    "startup_stm32l476xx", "STM32L476xx", "l4"⟩

/-- Parameter entry for part numbers containing `STM32H7`. -/
def paramsH7 : MCUParams :=
  ⟨"-mcpu=cortex-m7", "-mfpu=fpv5-d16", "-mfloat-abi=hard",
    "startup_stm32h750xx", "STM32H750xx", "h7"⟩

/-- Effective MCU name used by `getMCUParams` and `getMemorySizes`: a falsy
(empty) argument is replaced by `this.projectConfig?.mcu || 'STM32F407VG'`,
where `fb` models the optional configured MCU string. -/
def effName (fb : Option String) (s : String) : String :=
  if s = "" then jsOrStr fb "STM32F407VG" else s

/-- Substring-match chain of `ConfigManager.getMCUParams` on the effective
name, mirroring the source's `if (mcuName.includes(...))` cascade, with the
fixed `STM32F407` fallback at the end. -/
def mcuParamsFor (m : String) : MCUParams :=
  if jsIncludes m "STM32F407" then paramsF407
  else if jsIncludes m "STM32F401" then paramsF401
  else if jsIncludes m "STM32F411" then paramsF411
  else if jsIncludes m "STM32F103" then paramsF103
  else if jsIncludes m "STM32F303" then paramsF303
  else if jsIncludes m "STM32F030" then paramsF030
  else if jsIncludes m "STM32G0" then paramsG0
  else if jsIncludes m "STM32L4" then paramsL4
  else if jsIncludes m "STM32H7" then paramsH7
  else paramsF407

/-- Model of `ConfigManager.getMCUParams(mcuName)`; `fb` models
`this.projectConfig?.mcu`, consulted only when the argument is falsy. -/
def getMCUParams (fb : Option String) (mcuName : String) : MCUParams :=
  mcuParamsFor (effName fb mcuName)

/-- Ordered substring-match table corresponding to the `getMCUParams`
cascade, written as data for the refinement statement of the spec
("ordered table; first match wins"). -/
def mcuTable : List (String × MCUParams) :=
  [("STM32F407", paramsF407), ("STM32F401", paramsF401),
   ("STM32F411", paramsF411), ("STM32F103", paramsF103),
   ("STM32F303", paramsF303), ("STM32F030", paramsF030),
   ("STM32G0", paramsG0), ("STM32L4", paramsL4), ("STM32H7", paramsH7)]

/-- Lookup as the specification words it: the first table entry whose
substring occurs in the identifier, or the fixed `STM32F407` default when
no entry matches. -/
def mcuLookupSpec (m : String) : MCUParams :=
  (((mcuTable.find? (fun e => jsIncludes m e.1)).map (fun e => e.2)).getD paramsF407)

theorem mcuParamsFor_eq_lookupSpec (s : String) : mcuParamsFor s = mcuLookupSpec s := by
  unfold mcuParamsFor mcuLookupSpec mcuTable
  split_ifs <;> simp [List.find?, *]

theorem effName_ne_empty (fb : Option String) (s : String) : effName fb s ≠ "" := by
  unfold effName jsOrStr
  split_ifs with h
  · match fb with
    | none => simp
    | some v =>
      dsimp only
      split_ifs with hv
      · simp
      · exact hv
  · exact h

/-! ## Memory sizes (`ConfigManager.getMemorySizes`) -/

/-- Flash / RAM / CCM-RAM size triple. -/
structure MemorySizes where
  flash : String
  ram : String
  ccmram : String
deriving DecidableEq, Repr

/-- Size pair selected by the third-from-last character of the part number
(the `sizeMap` object of the source). -/
def sizeMapLookup (code : String) : Option (String × String) :=
  if code = "V" then some ("1024K", "192K")
  else if code = "Z" then some ("1024K", "256K")
  else if code = "I" then some ("2048K", "256K")
  else if code = "G" then some ("512K", "128K")
  else if code = "C" then some ("256K", "64K")
  else none

/-- Model of JavaScript `s.charAt(s.length - 3)`: the empty string when the
index is negative (part number shorter than three characters). -/
def charAtThirdFromEnd (s : String) : String :=
  if s.length < 3 then "" else
    match s.data.get? (s.length - 3) with
    | some c => String.singleton c
    | none => ""

/-- Model of `ConfigManager.getMemorySizes(mcuName)`: picks flash/RAM from
the memory-size letter of the part number and grants CCM-RAM only when the
series code equals `'F4'`, `'F7'` or `'H7'`; `fb` models
`this.projectConfig?.mcu` as in `getMCUParams`. -/
def getMemorySizes (fb : Option String) (mcuName : String) : MemorySizes :=
  let m := effName fb mcuName
  if m = "" then ⟨"1024K", "192K", "64K"⟩
  else
    let sizes := (sizeMapLookup (charAtThirdFromEnd m)).getD ("1024K", "192K")
    let series := (getMCUParams fb m).series
    let hasCCMRAM := series == "F4" || series == "F7" || series == "H7"
    ⟨sizes.1, sizes.2, if hasCCMRAM then "64K" else "0K"⟩

theorem mcuParamsFor_series_not_upper (m : String) :
    ((mcuParamsFor m).series == "F4" || (mcuParamsFor m).series == "F7" ||
      (mcuParamsFor m).series == "H7") = false := by
  unfold mcuParamsFor
  split_ifs <;> rfl

/-! ## Project configuration (record view used by the generator) -/

/-- The fields of the persisted project configuration that the Makefile
generator and resolvers read.  `ldscript`/`ldscriptPath` and
`startupFile`/`startupFilePath` are `none` until resolved. -/
structure ProjectConfig where
  projectName : String
  mcu : String
  sourceDirs : List String
  includeDirs : List String
  excludeFiles : List String
  ldscript : Option String
  ldscriptPath : Option String
  startupFile : Option String
  startupFilePath : Option String
deriving DecidableEq, Repr

/-! ## Makefile generator (`MakefileGenerator.generateContent`) -/

/-- Exclude-rule fragment of `generateContent`: present only when
`excludeFiles` is non-empty. -/
def excludeRule (excludeFiles : List String) : String :=
  if excludeFiles.length > 0 then
    "\n# Исключаемые файлы\nC_SOURCES := $(filter-out " ++
      String.intercalate " " (excludeFiles.map (fun f => "%" ++ f)) ++
      ", $(C_SOURCES))"
  else ""

/-- Body of `MakefileGenerator.generateContent(projectName, startupFile,
ldscript, mcuParams, projectConfig)`.  The `now` argument stands for the
`new Date().toLocaleString()` read performed inside the function. -/
def generateContent (projectName startupFileArg ldscriptArg : String)
    (mcuParams : MCUParams) (projectConfig : ProjectConfig) (now : String) : String :=
  "################################################################################\n" ++
  "# Автоматически сгенерировано STM32 Tools\n" ++
  "# Проект: " ++ projectName ++ "\n" ++
  "# MCU: " ++ (if projectConfig.mcu = "" then "STM32F407VG" else projectConfig.mcu) ++ "\n" ++
  "# Дата: " ++ now ++ "\n" ++
  "################################################################################\n" ++
  "\n" ++
  "TARGET = " ++ projectName ++ "\n" ++
  "DEBUG = 1\n" ++
  "OPT = -Og\n" ++
  "BUILD_DIR = build\n" ++
  "\n" ++
  "# Исходные файлы\n" ++
  "C_SOURCES = \\\n" ++
  String.intercalate " \\\n"
    (projectConfig.sourceDirs.map (fun dir => "\t$(wildcard " ++ dir ++ "/*.c)")) ++
  excludeRule projectConfig.excludeFiles ++
  "\n\n" ++
  "# Стартап файл\n" ++
  "ASM_SOURCES = \\\n" ++
  "\t" ++ startupFileArg ++ ".s\n" ++
  "\n" ++
  "# Инструменты\n" ++
  "PREFIX = arm-none-eabi-\n" ++
  "CC = $(PREFIX)gcc\n" ++
  "AS = $(PREFIX)gcc -x assembler-with-cpp\n" ++
  "CP = $(PREFIX)objcopy\n" ++
  "SZ = $(PREFIX)size\n" ++
  "\n" ++
  "# Параметры MCU\n" ++
  "CPU = " ++ mcuParams.cpu ++ "\n" ++
  "FPU = " ++ mcuParams.fpu ++ "\n" ++
  "FLOAT-ABI = " ++ mcuParams.floatAbi ++ "\n" ++
  "MCU = $(CPU) -mthumb $(FPU) $(FLOAT-ABI)\n" ++
  "\n" ++
  "# Определения препроцессора\n" ++
  "C_DEFS = \\\n" ++
  "\t-DUSE_HAL_DRIVER \\\n" ++
  "\t-D" ++ mcuParams.define ++ "\n" ++
  "\n" ++
  "# Пути include\n" ++
  "C_INCLUDES = \\\n" ++
  String.intercalate " \\\n"
    (projectConfig.includeDirs.map (fun dir => "\t-I" ++ dir)) ++
  "\n" ++
  "\n" ++
  "# Флаги компиляции\n" ++
  "ASFLAGS = $(MCU) $(AS_DEFS) $(AS_INCLUDES) $(OPT) -Wall -fdata-sections -ffunction-sections\n" ++
  "CFLAGS = $(MCU) $(C_DEFS) $(C_INCLUDES) $(OPT) -Wall -fdata-sections -ffunction-sections\n" ++
  "\n" ++
  "ifeq ($(DEBUG), 1)\n" ++
  "CFLAGS += -g -gdwarf-2\n" ++
  "endif\n" ++
  "\n" ++
  "CFLAGS += -MMD -MP -MF\"$(@:%.o=%.d)\"\n" ++
  "\n" ++
  "# Флаги линковки\n" ++
  "LDSCRIPT = " ++ ldscriptArg ++ "\n" ++
  "LIBS = -lc -lm -lnosys \n" ++
  "LDFLAGS = $(MCU) -specs=nano.specs -T$(LDSCRIPT) $(LIBS) -Wl,-Map=$(BUILD_DIR)/$(TARGET).map,--cref -Wl,--gc-sections\n" ++
  "\n" ++
  "# Основная цель\n" ++
  "all: $(BUILD_DIR)/$(TARGET).elf $(BUILD_DIR)/$(TARGET).hex $(BUILD_DIR)/$(TARGET).bin\n" ++
  "\n" ++
  "# Правила сборки\n" ++
  "OBJECTS = $(addprefix $(BUILD_DIR)/,$(notdir $(C_SOURCES:.c=.o)))\n" ++
  "vpath %.c $(sort $(dir $(C_SOURCES)))\n" ++
  "OBJECTS += $(addprefix $(BUILD_DIR)/,$(notdir $(ASM_SOURCES:.s=.o)))\n" ++
  "vpath %.s $(sort $(dir $(ASM_SOURCES)))\n" ++
  "\n" ++
  "$(BUILD_DIR)/%.o: %.c Makefile | $(BUILD_DIR) \n" ++
  "\t$(CC) -c $(CFLAGS) -Wa,-a,-ad,-alms=$(BUILD_DIR)/$(notdir $(<:.c=.lst)) $< -o $@\n" ++
  "\n" ++
  "$(BUILD_DIR)/%.o: %.s Makefile | $(BUILD_DIR)\n" ++
  "\t$(AS) -c $(CFLAGS) $< -o $@\n" ++
  "\n" ++
  "$(BUILD_DIR)/$(TARGET).elf: $(OBJECTS) Makefile\n" ++
  "\t$(CC) $(OBJECTS) $(LDFLAGS) -o $@\n" ++
  "\t$(SZ) $@\n" ++
  "\n" ++
  "$(BUILD_DIR)/%.hex: $(BUILD_DIR)/%.elf | $(BUILD_DIR)\n" ++
  "\t$(CP) -O ihex $< $@\n" ++
  "\n" ++
  "$(BUILD_DIR)/%.bin: $(BUILD_DIR)/%.elf | $(BUILD_DIR)\n" ++
  "\t$(CP) -O binary -S $< $@\n" ++
  "\n" ++
  "$(BUILD_DIR):\n" ++
  "\tmkdir -p $@\n" ++
  "\n" ++
  "# Очистка\n" ++
  "clean:\n" ++
  "\t-rm -fR $(BUILD_DIR)\n" ++
  "\n" ++
  "# Прошивка\n" ++
  "flash: $(BUILD_DIR)/$(TARGET).bin\n" ++
  "\tSTM32_Programmer_CLI -c port=SWD -w \"$<\" -v -rst\n" ++
  "\n" ++
  "# Зависимости\n" ++
  "-include $(wildcard $(BUILD_DIR)/*.d)"

/-- Pure part of `MakefileGenerator.generate` after fixing the MCU
parameters: the effective startup name is `projectConfig.startupFile ||
mcuParams.startupFile` and the effective linker-script name is
`projectConfig.ldscript || 'STM32F407XX_FLASH.ld'`. -/
def render (cfg : ProjectConfig) (mcuParams : MCUParams) (now : String) : String :=
  generateContent cfg.projectName
    (jsOrStr cfg.startupFile mcuParams.startupFile)
    (jsOrStr cfg.ldscript "STM32F407XX_FLASH.ld")
    mcuParams cfg now

/-- Content produced by `MakefileGenerator.generate`, which derives the MCU
parameters from `projectConfig.mcu` itself before rendering (the file write
is I/O and is not modelled). -/
def generate (cfg : ProjectConfig) (now : String) : String :=
  render cfg (getMCUParams (some cfg.mcu) cfg.mcu) now

/-- Effective linker-script name substituted by `generate` (source line
`const ldscript = projectConfig.ldscript || 'STM32F407XX_FLASH.ld';`). -/
def generateEffectiveLdscript (cfg : ProjectConfig) : String :=
  jsOrStr cfg.ldscript "STM32F407XX_FLASH.ld"

/-! ## Expected linker-script name (`ConfigManager.getExpectedLinkerName`) -/

/-- Model of `mcuName.replace(/\d+$/, '')`: strips a trailing run of
digits. -/
def stripTrailingDigits (s : String) : String :=
  ⟨(s.data.reverse.dropWhile Char.isDigit).reverse⟩

/-- Attempt of the regex `STM32(F\d+[A-Z]*[A-Z])` anchored at the head of
the character list: `STM32` then `F`, one or more digits, then one or more
upper-case letters (the greedy run), returning the capture group. -/
def matchVariantAt (l : List Char) : Option (List Char) :=
  if "STM32F".data.isPrefixOf l then
    let rest := l.drop 6
    let digits := rest.takeWhile Char.isDigit
    let letters := (rest.drop digits.length).takeWhile Char.isUpper
    if digits.isEmpty || letters.isEmpty then none
    else some ('F' :: (digits ++ letters))
  else none

/-- Leftmost match of the regex `STM32(F\d+[A-Z]*[A-Z])`. -/
def firstVariant : List Char → Option (List Char)
  | [] => none
  | c :: t =>
    match matchVariantAt (c :: t) with
    | some g => some g
    | none => firstVariant t

/-- Model of `ConfigManager.getExpectedLinkerName(mcuName)`: strips trailing
digits, extracts the family+variant via the regex, and appends the fixed
`_FLASH.ld` suffix; the final `replace(/\.\./g, '.')` collapses double
dots. -/
def getExpectedLinkerName (mcuName : String) : String :=
  if mcuName = "" then "STM32F407XX_FLASH.ld"
  else
    let baseName := stripTrailingDigits mcuName
    match firstVariant baseName.data with
    | some g => "STM32" ++ String.mk g ++ "_FLASH.ld"
    | none => (mcuName ++ "_FLASH.ld").replace ".." "."

/-! ## Linker-script resolver (`ConfigManager.findLinkerScript`) -/

/-- Relative path of `f` under workspace root `ws` (model of
`path.relative` for the in-workspace paths produced by the search). -/
def relativize (ws f : String) : String :=
  if (ws ++ "/").data.isPrefixOf f.data then ⟨f.data.drop (ws.length + 1)⟩ else f

/-- Result record of `findLinkerScript`: basename, absolute path and
workspace-relative path of the selected script. -/
structure LdResult where
  ldscript : String
  ldscriptPath : String
  relativePath : String
deriving DecidableEq, Repr

/-- Model of `ConfigManager.findLinkerScript`.  `foundFiles0` is the
concatenation of the `vscode.workspace.findFiles` results for the four glob
patterns, in enumeration order; the body deduplicates it, returns `null`
when empty, otherwise prefers a file matching the expected linker name
derived from the configured MCU (`mcuName`, falsy when unset) and falls
back to the first found file. -/
def findLinkerScript (ws : String) (foundFiles0 : List String)
    (mcuName : String) : Option LdResult :=
  let foundFiles := jsDedup foundFiles0
  if foundFiles.isEmpty then none
  else
    let preferredLd : Option String :=
      if mcuName ≠ "" then
        let expectedLdName := getExpectedLinkerName mcuName
        foundFiles.find? (fun f =>
          basename f == expectedLdName ||
          jsIncludes f (replaceFirst expectedLdName ".ld" ""))
      else none
    let selectedLd := preferredLd.getD (foundFiles.headD "")
    some ⟨basename selectedLd, selectedLd, relativize ws selectedLd⟩

/-! ## Startup-file resolver (`ConfigManager.findStartupFile`) -/

/-- Result record of `findStartupFile`. -/
structure StartupResult where
  startupFile : String
  startupFilePath : String
  relativePath : String
deriving DecidableEq, Repr

/-- Startup name extracted from a path in `findStartupFile`:
`path.basename(p, '.s').replace('.S', '')`. -/
def startupNameOf (p : String) : String :=
  let b := basename p
  let b2 : String :=
    if ".s".data.isSuffixOf b.data then ⟨b.data.take (b.data.length - 2)⟩ else b
  replaceFirst b2 ".S" ""

/-- Case-sensitive suitability test of the fallback branch of
`findStartupFile`: the path contains the startup-file token, or the
lower-cased preprocessor define with its first `xx` removed. -/
def startupSuitable (p : MCUParams) (f : String) : Bool :=
  jsIncludes f p.startupFile ||
  jsIncludes f (replaceFirst (toLowerStr p.define) "xx" "")

/-- Fallback branch of `ConfigManager.findStartupFile` (reached when none
of the conventional fixed subdirectories holds the expected file):
`allStartupFiles0` is the concatenation of the glob results for the
`startup*` patterns; after deduplication, an empty list yields `null`,
otherwise the first suitable file is chosen, else the first file. -/
def findStartupFallback (ws : String) (allStartupFiles0 : List String)
    (p : MCUParams) : Option StartupResult :=
  let allStartupFiles := jsDedup allStartupFiles0
  if allStartupFiles.isEmpty then none
  else
    let suitableFile := (allStartupFiles.find? (startupSuitable p)).getD
      (allStartupFiles.headD "")
    some ⟨startupNameOf suitableFile, suitableFile, relativize ws suitableFile⟩

/-- Case-insensitive occurrence test, used to state the specification's
"case-insensitive substring" reading of the fallback selection. -/
def ciIncludes (s pat : String) : Bool := jsIncludes (toLowerStr s) (toLowerStr pat)

/-- Case-insensitive suitability following the specification's words, to be
compared with the source's `startupSuitable`. -/
def startupSuitableCI (p : MCUParams) (f : String) : Bool :=
  ciIncludes f p.startupFile || ciIncludes f p.define

/-! ## Makefile freshness check -/

/-- Mismatch report of the freshness check: current startup/linker values
(from the configuration the existing build file was rendered from) against
the expected values derived from the configuration's MCU. -/
structure FreshnessDetails where
  currentStartup : String
  expectedStartup : String
  currentLdscript : String
  expectedLdscript : String
deriving DecidableEq, Repr

/-- Result of the freshness check. -/
structure FreshnessResult where
  upToDate : Bool
  details : Option FreshnessDetails
deriving DecidableEq, Repr

/-- Modelled from the spec: the implementation `checkMakefile` of
`src/utils/makefileGenerator.js` is not included under `src/` (only its
callers `BuildManager.checkBuildTools` and `ProjectManager.checkMakefile`
are).  Following §4.4 of the specification, the check re-renders the
expected startup/linker references from the current configuration — the
startup token of the MCU's parameter set and the expected linker name
derived from the MCU identifier — and tests whether they are textually
present in the existing build file; when stale it reports the
configuration's currently stored (previously rendered) values against the
expected ones. -/
def checkFreshness (buildFile : String) (cfg : ProjectConfig) : FreshnessResult :=
  let p := getMCUParams (some cfg.mcu) cfg.mcu
  let expectedStartup := p.startupFile
  let expectedLd := getExpectedLinkerName cfg.mcu
  let startupOk := jsIncludes buildFile (expectedStartup ++ ".s")
  let ldOk := jsIncludes buildFile expectedLd
  if startupOk && ldOk then ⟨true, none⟩
  else
    ⟨false, some ⟨cfg.startupFile.getD "", expectedStartup,
                  cfg.ldscript.getD "", expectedLd⟩⟩

/-! ## Configuration store (`ConfigManager.loadConfig` / `saveConfig`)

The on-disk configuration is a JSON object merged over the defaults by
`{ ...defaultConfig, ...parsedConfig }`; JavaScript objects are modelled as
partial maps from keys to JSON values so that the dynamic spread keeps its
exact semantics. -/

/-- JSON values stored in `.stm32-config.json`. -/
inductive JSValue where
  | str (s : String)
  | num (n : Int)
  | jsBool (b : Bool)
  | jsNull
  | arr (l : List String)
deriving DecidableEq, Repr

/-- A JavaScript object: a partial map from property names to values. -/
def JSObj : Type := String → Option JSValue

/-- Model of the object spread `{ ...a, ...b }`: properties of `b` win. -/
def jsSpread (a b : JSObj) : JSObj :=
  fun k => match b k with
    | some v => some v
    | none => a k

/-- Platform-dependent serial-port pattern of `getDefaultConfig`. -/
def serialPortPattern (platform : String) : String :=
  if platform = "win32" then "COM*"
  else if platform = "darwin" then "/dev/tty*usb*"
  else if platform = "linux" then "/dev/ttyUSB*"
  else "/dev/ttyUSB*"

/-- Platform-dependent default programmer path
(`getDefaultProgrammerPath`). -/
def defaultProgrammerPath (platform : String) : String :=
  if platform = "darwin" then
    "/Applications/STM32CubeIDE.app/Contents/Eclipse/plugins/com.st.stm32cube.ide.mcu.externaltools.cubeprogrammer.macos64_2.2.300.202508131133/tools/bin/STM32_Programmer_CLI"
  else if platform = "win32" then
    "C:\\Program Files\\STMicroelectronics\\STM32Cube\\STM32CubeProgrammer\\bin\\STM32_Programmer_CLI.exe"
  else "/usr/local/bin/STM32_Programmer_CLI"

/-- Platform-dependent default GCC path (`getDefaultGccPath`). -/
def defaultGccPath (platform : String) : String :=
  if platform = "darwin" then
    "/Applications/STM32CubeIDE.app/Contents/Eclipse/plugins/com.st.stm32cube.ide.mcu.externaltools.gnu-tools-for-stm32.13.3.rel1.macos64_1.0.100.202509120712/tools/bin/arm-none-eabi-gcc"
  else if platform = "win32" then
    "C:\\Program Files (x86)\\GNU Arm Embedded Toolchain\\10 2021.10\\bin\\arm-none-eabi-gcc.exe"
  else "/usr/bin/arm-none-eabi-gcc"

/-- Key/value pairs of `ConfigManager.getDefaultConfig`, in source order. -/
def defaultConfigPairs (platform : String) : List (String × JSValue) :=
  [("projectName", .str "STM32F407VGT6"),
   ("mcu", .str "STM32F407VGTx"),
   ("mcuFamily", .str "STM32F4"),
   ("compilerLinker", .str "GCC"),
   ("stackSize", .str "0x400"),
   ("heapSize", .str "0x200"),
   ("sysClockFreq", .str "8000000"),
   ("serialPort", .str (serialPortPattern platform)),
   ("baudRate", .num 115200),
   ("programmerPath", .str (defaultProgrammerPath platform)),
   ("gccPath", .str (defaultGccPath platform)),
   ("sourceDirs", .arr ["Core/Src", "Drivers/STM32F4xx_HAL_Driver/Src"]),
   ("excludeFiles", .arr []),
   ("includeDirs", .arr ["Core/Inc", "Drivers/STM32F4xx_HAL_Driver/Inc",
      "Drivers/CMSIS/Include", "Drivers/CMSIS/Device/ST/STM32F4xx/Include",
      "Drivers/STM32F4xx_HAL_Driver/Inc/Legacy"]),
   ("autoUpdateMakefile", .jsBool true),
   ("preferredMonitor", .str "auto"),
   ("clearBufferOnStart", .jsBool true),
   ("monitorTimeout", .num 3000),
   ("ldscript", .jsNull),
   ("startupFile", .jsNull),
   ("ldscriptPath", .jsNull),
   ("startupFilePath", .jsNull),
   ("configInitialized", .jsBool false)]

/-- The default configuration object (`getDefaultConfig`). -/
def defaultConfigObj (platform : String) : JSObj :=
  fun k => (defaultConfigPairs platform).lookup k

/-- State of the on-disk configuration file: absent, or present with the
outcome of `JSON.parse` on its contents (`Except.error` = malformed). -/
def DiskConfig : Type := Option (Except String JSObj)

/-- Model of `ConfigManager.loadConfig`: when the file exists and parses,
the parsed object is spread over the defaults; a parse failure is caught
and degrades to the pure defaults; an absent file yields the defaults.  The
function is total — no error escapes to the caller. -/
def loadConfig (platform : String) (disk : DiskConfig) : JSObj :=
  match disk with
  | none => defaultConfigObj platform
  | some (Except.ok parsedConfig) => jsSpread (defaultConfigObj platform) parsedConfig
  | some (Except.error _) => defaultConfigObj platform

/-- Model of the disk effect of `ConfigManager.saveConfig`:
`JSON.stringify(this.projectConfig)` fully overwrites the file, so a
subsequent parse returns exactly the saved object (all stored values are
JSON-serialisable). -/
def saveConfigDisk (cfg : JSObj) : DiskConfig := some (Except.ok cfg)

/-! ## Pairing of `ldscript`/`ldscriptPath` and `startupFile`/`startupFilePath` -/

/-- Fragment of the configuration state carrying the two name/path pairs. -/
structure PairState where
  ldscript : Option String
  ldscriptPath : Option String
  startupFile : Option String
  startupFilePath : Option String
deriving DecidableEq, Repr

/-- Initial pair state of `getDefaultConfig`: all four fields `null`. -/
def initPairState : PairState := ⟨none, none, none, none⟩

/-- Pairing invariant: each basename is set exactly when its absolute path
is. -/
def paired (s : PairState) : Bool :=
  (s.ldscript.isSome == s.ldscriptPath.isSome) &&
  (s.startupFile.isSome == s.startupFilePath.isSome)

/-- Writeback of a linker-resolver result (`initializeProjectConfig`,
`checkProjectFiles`, `verifyProjectFiles`, `handleMissingLinker`,
`selectLinkerScript`): when a result is present both fields are assigned
from it, otherwise the state is untouched. -/
def applyLdResult (r : Option LdResult) (s : PairState) : PairState :=
  match r with
  | some ld => { s with ldscript := some ld.ldscript, ldscriptPath := some ld.ldscriptPath }
  | none => s

/-- Writeback of a startup-resolver result (same call sites as
`applyLdResult`, startup side). -/
def applyStartupResult (r : Option StartupResult) (s : PairState) : PairState :=
  match r with
  | some su => { s with startupFile := some su.startupFile,
                        startupFilePath := some su.startupFilePath }
  | none => s

/-- Reset of the linker pair performed by `BuildManager.handleBuildError`
("Проверить скрипт линкера"): both fields to `null`. -/
def resetLdPair (s : PairState) : PairState :=
  { s with ldscript := none, ldscriptPath := none }

/-- Reset of the startup pair performed by `BuildManager.handleBuildError`
("Проверить startup файл"): both fields to `null`. -/
def resetStartupPair (s : PairState) : PairState :=
  { s with startupFile := none, startupFilePath := none }

/-- Model of the generic `ConfigManager.set(key, value)` restricted to this
state fragment: assigns exactly the one named property. -/
def setKey (key : String) (v : Option String) (s : PairState) : PairState :=
  if key = "ldscript" then { s with ldscript := v }
  else if key = "ldscriptPath" then { s with ldscriptPath := v }
  else if key = "startupFile" then { s with startupFile := v }
  else if key = "startupFilePath" then { s with startupFilePath := v }
  else s

/-- States reachable from the default configuration through the concrete
mutation sites of the repository that touch the two pairs (resolver
writebacks, manual selection, and the build-error resets; the generic
single-key `set` is excluded — it has no callers in the repository). -/
inductive ReachablePairState : PairState → Prop where
  | init : ReachablePairState initPairState
  | ld (r : Option LdResult) {s : PairState} :
      ReachablePairState s → ReachablePairState (applyLdResult r s)
  | startup (r : Option StartupResult) {s : PairState} :
      ReachablePairState s → ReachablePairState (applyStartupResult r s)
  | resetLd {s : PairState} :
      ReachablePairState s → ReachablePairState (resetLdPair s)
  | resetStartup {s : PairState} :
      ReachablePairState s → ReachablePairState (resetStartupPair s)

/-! ## Occurrence lemmas for `jsIncludes` -/

theorem isPrefixOf_self_append (p b : List Char) : p.isPrefixOf (p ++ b) = true := by
  induction p with
  | nil => simp [List.isPrefixOf]
  | cons c t ih => simp [List.isPrefixOf, ih]

theorem csub_of_pref {p hay : List Char} (h : p.isPrefixOf hay = true) :
    csub p hay = true := by
  cases hay with
  | nil =>
    cases p with
    | nil => rfl
    | cons c t => simp [List.isPrefixOf] at h
  | cons c t => simp [csub, h]

theorem csub_append_left {p r : List Char} (a : List Char) (h : csub p r = true) :
    csub p (a ++ r) = true := by
  induction a with
  | nil => exact h
  | cons c t ih => simp [csub, ih]

theorem jsIncludes_append_left {r pat : String} (a : String)
    (h : jsIncludes r pat = true) : jsIncludes (a ++ r) pat = true := by
  unfold jsIncludes at *
  rw [String.data_append]
  exact csub_append_left a.data h

theorem jsIncludes_self_append (pat b : String) : jsIncludes (pat ++ b) pat = true := by
  unfold jsIncludes
  rw [String.data_append]
  exact csub_of_pref (isPrefixOf_self_append pat.data b.data)

/-! ## Claim theorems -/

set_option maxRecDepth 40000 in
/-- C1 (counterexample): two `generateContent` calls with equal
`(ProjectConfig, MCUParams)` arguments but different wall-clock readings
produce different Makefile text — the `new Date().toLocaleString()` read
lands in the `# Дата:` header line, so the output is not a function of the
two arguments alone. -/
theorem render_differs_across_clock_readings :
    render ⟨"P", "STM32F407VGTx", ["Core/Src"], ["Core/Inc"], [],
            some "STM32F407VG_FLASH.ld", some "/w/STM32F407VG_FLASH.ld",
            some "startup_stm32f407xx", some "/w/startup_stm32f407xx.s"⟩
        paramsF407 "01.01.2025, 00:00:00" ≠
    render ⟨"P", "STM32F407VGTx", ["Core/Src"], ["Core/Inc"], [],
            some "STM32F407VG_FLASH.ld", some "/w/STM32F407VG_FLASH.ld",
            some "startup_stm32f407xx", some "/w/startup_stm32f407xx.s"⟩
        paramsF407 "02.01.2025, 00:00:00" := by
  decide

/-- C1 (amended): `render` is deterministic once the implicit clock reading
is included among the inputs — two calls with equal `ProjectConfig`, equal
`MCUParams` and an equal `new Date().toLocaleString()` value yield
byte-identical output. -/
theorem render_time_fixed_deterministic (c₁ c₂ : ProjectConfig)
    (p₁ p₂ : MCUParams) (n₁ n₂ : String)
    (hc : c₁ = c₂) (hp : p₁ = p₂) (hn : n₁ = n₂) :
    render c₁ p₁ n₁ = render c₂ p₂ n₂ := by
  rw [hc, hp, hn]

/-- Witness for C1: the determinism theorem applied at a concrete
configuration, parameter set and clock reading. -/
theorem render_time_fixed_deterministic_witness :
    render ⟨"P", "M", ["S"], ["I"], [], none, none, none, none⟩ paramsF407 "t" =
    render ⟨"P", "M", ["S"], ["I"], [], none, none, none, none⟩ paramsF407 "t" :=
  render_time_fixed_deterministic _ _ _ _ _ _ rfl rfl rfl

/-- C4: for every non-empty MCU identifier, `getMCUParams` returns the
parameter set of the first entry of the ordered substring table that occurs
in the identifier, falling back to the fixed `STM32F407` default entry when
no entry matches — in particular it always returns a complete parameter
set. -/
theorem getMCUParams_is_first_match_or_default (fb : Option String)
    (s : String) (h : s ≠ "") : getMCUParams fb s = mcuLookupSpec s := by
  unfold getMCUParams
  have he : effName fb s = s := by unfold effName; simp [h]
  rw [he, mcuParamsFor_eq_lookupSpec]

/-- Witness for C4: the table-lookup characterisation evaluated at the
reference part number `STM32F407VGTx`. -/
theorem getMCUParams_is_first_match_or_default_witness :
    ("STM32F407VGTx" : String) ≠ "" ∧
    getMCUParams none "STM32F407VGTx" = mcuLookupSpec "STM32F407VGTx" :=
  ⟨by decide, getMCUParams_is_first_match_or_default none "STM32F407VGTx" (by decide)⟩

/-- C5: the configuration produced by `loadConfig` from a parsed on-disk
override equals the defaults with exactly the override's keys replaced: a
key present in the override takes the override's value, and a key absent
from it keeps its default value. -/
theorem loadConfig_merge_precedence (platform : String) (override : JSObj)
    (k : String) :
    loadConfig platform (some (Except.ok override)) k =
      match override k with
      | some v => some v
      | none => defaultConfigObj platform k := by
  rfl

/-- C6: when the persisted configuration file exists but holds malformed
JSON (`JSON.parse` raises), `loadConfig` catches the failure and yields
exactly the pure default configuration; totality of the Lean model mirrors
that no exception escapes to the caller. -/
theorem loadConfig_malformed_json_yields_defaults (platform msg : String) :
    loadConfig platform (some (Except.error msg)) = defaultConfigObj platform := by
  rfl

/-- C7: with no external file change in between, `load; save; load` yields
the configuration of the first `load`, for every platform and every initial
disk state (absent file, malformed file, or parsed override). -/
theorem load_save_load_roundtrip (platform : String) (disk : DiskConfig) :
    loadConfig platform (saveConfigDisk (loadConfig platform disk)) =
      loadConfig platform disk := by
  match disk with
  | none =>
    funext k
    show jsSpread (defaultConfigObj platform) (defaultConfigObj platform) k = _
    cases hd : defaultConfigObj platform k <;> simp [loadConfig, jsSpread, hd]
  | some (Except.error e) =>
    funext k
    show jsSpread (defaultConfigObj platform) (defaultConfigObj platform) k = _
    cases hd : defaultConfigObj platform k <;> simp [loadConfig, jsSpread, hd]
  | some (Except.ok p) =>
    funext k
    show jsSpread (defaultConfigObj platform) (jsSpread (defaultConfigObj platform) p) k = _
    cases hp : p k <;> cases hd : defaultConfigObj platform k <;>
      simp [loadConfig, jsSpread, hp, hd]

/-- C10: for every MCU identifier (and every configured fallback,
including the default), the memory triple returned by `getMemorySizes` has
`ccmram = "0K"`: the series codes produced by `getMCUParams` are lower-case
(`f4`, `h7`, …) while the CCM-RAM test compares against the upper-case
codes `F4`, `F7`, `H7`, so the `64K` branch is unreachable. -/
theorem getMemorySizes_ccmram_always_zero (fb : Option String) (mcuName : String) :
    (getMemorySizes fb mcuName).ccmram = "0K" := by
  have h := effName_ne_empty fb mcuName
  unfold getMemorySizes
  simp only [h, if_false, getMCUParams]
  simp [mcuParamsFor_series_not_upper]

set_option maxRecDepth 400000 in
/-- C3 (counterexample): with the linker script unresolved
(`ldscript = null`, as after a resolver miss), `MakefileGenerator.generate`
does substitute the fabricated fixed name `STM32F407XX_FLASH.ld` — the line
`const ldscript = projectConfig.ldscript || 'STM32F407XX_FLASH.ld';` — and
the rendered Makefile contains a `LDSCRIPT =` line naming it, contradicting
the claim that no operation substitutes a name for the null result. -/
theorem generate_fabricates_ldscript_name :
    (⟨"P", "STM32F407VGTx", ["Core/Src"], ["Core/Inc"], [], none, none,
      some "startup_stm32f407xx", some "/w/startup_stm32f407xx.s"⟩ :
        ProjectConfig).ldscript = none ∧
    generateEffectiveLdscript
      ⟨"P", "STM32F407VGTx", ["Core/Src"], ["Core/Inc"], [], none, none,
        some "startup_stm32f407xx", some "/w/startup_stm32f407xx.s"⟩ =
      "STM32F407XX_FLASH.ld" ∧
    jsIncludes
      (generate
        ⟨"P", "STM32F407VGTx", ["Core/Src"], ["Core/Inc"], [], none, none,
          some "startup_stm32f407xx", some "/w/startup_stm32f407xx.s"⟩
        "01.01.2025, 00:00:00")
      "LDSCRIPT = STM32F407XX_FLASH.ld" = true := by
  refine ⟨rfl, rfl, ?_⟩
  decide

/-- C3 (amended): when the workspace search yields zero files,
`findLinkerScript` returns `null` and never a fabricated path; however the
`generate` caller, rather than refusing, substitutes the fixed default name
`STM32F407XX_FLASH.ld` whenever the configuration's `ldscript` is null. -/
theorem findLinkerScript_null_but_generate_substitutes_default
    (ws mcuName : String) (cfg : ProjectConfig) (h : cfg.ldscript = none) :
    findLinkerScript ws [] mcuName = none ∧
    generateEffectiveLdscript cfg = "STM32F407XX_FLASH.ld" := by
  refine ⟨rfl, ?_⟩
  simp [generateEffectiveLdscript, jsOrStr, h]

/-- Witness for C3: the amended statement at a concrete workspace, MCU and
null-ldscript configuration. -/
theorem findLinkerScript_null_but_generate_substitutes_default_witness :
    findLinkerScript "/w" [] "STM32F407VGTx" = none ∧
    generateEffectiveLdscript ⟨"P", "M", [], [], [], none, none, none, none⟩ =
      "STM32F407XX_FLASH.ld" :=
  findLinkerScript_null_but_generate_substitutes_default "/w" "STM32F407VGTx"
    ⟨"P", "M", [], [], [], none, none, none, none⟩ rfl

/-- C9 (counterexample): the generic `ConfigManager.set(key, value)`
mutates exactly one property, so applied to `ldscript` alone it leaves the
configuration with `ldscript` set while `ldscriptPath` is still null,
violating the pairing invariant the claim asserts for every operation. -/
theorem generic_set_breaks_pairing :
    paired initPairState = true ∧
    paired (setKey "ldscript" (some "STM32F407VG_FLASH.ld") initPairState) = false := by
  decide

/-- C9 (amended): every state reachable from the default configuration
through the repository's concrete mutation sites for the two pairs
(resolver writebacks, manual selection, build-error resets — excluding the
generic single-key `ConfigManager.set`, which has no callers) keeps
`ldscript`/`ldscriptPath` both set or both null, and likewise
`startupFile`/`startupFilePath`. -/
theorem reachable_pair_states_satisfy_pairing (s : PairState)
    (h : ReachablePairState s) : paired s = true := by
  induction h with
  | init => rfl
  | ld r h ih =>
    cases r with
    | none => simpa [applyLdResult] using ih
    | some ld =>
      simp only [paired, Bool.and_eq_true, beq_iff_eq] at ih
      simp [applyLdResult, paired, ih.2]
  | startup r h ih =>
    cases r with
    | none => simpa [applyStartupResult] using ih
    | some su =>
      simp only [paired, Bool.and_eq_true, beq_iff_eq] at ih
      simp [applyStartupResult, paired, ih.1]
  | resetLd h ih =>
    simp only [paired, Bool.and_eq_true, beq_iff_eq] at ih
    simp [resetLdPair, paired, ih.2]
  | resetStartup h ih =>
    simp only [paired, Bool.and_eq_true, beq_iff_eq] at ih
    simp [resetStartupPair, paired, ih.1]

/-- Witness for C9: pairing holds in the concrete state reached by writing
back one linker-resolver result over the defaults. -/
theorem reachable_pair_states_satisfy_pairing_witness :
    paired (applyLdResult
      (some ⟨"STM32F407VG_FLASH.ld", "/w/STM32F407VG_FLASH.ld",
             "STM32F407VG_FLASH.ld"⟩) initPairState) = true :=
  reachable_pair_states_satisfy_pairing _
    (ReachablePairState.ld _ ReachablePairState.init)

/-- C8 (counterexample): the fallback selection of `findStartupFile` is not
the claimed case-insensitive containment: with files
`B/startup_other.s` and `A/STARTUP_STM32F407XX.s` and the F407 parameters,
the second file contains the startup token case-insensitively, yet the
source's `f.includes(...)` test (case-sensitive, against the lower-cased
define) matches neither file and the first file — which contains neither
token under any casing — is returned. -/
theorem findStartupFallback_not_case_insensitive :
    (findStartupFallback "/w" ["B/startup_other.s", "A/STARTUP_STM32F407XX.s"]
        paramsF407).map (fun r => r.startupFilePath) = some "B/startup_other.s" ∧
    ciIncludes "A/STARTUP_STM32F407XX.s" paramsF407.startupFile = true ∧
    startupSuitableCI paramsF407 "B/startup_other.s" = false := by
  decide

theorem find?_first_decomp {α : Type} {p : α → Bool} {l : List α} {a : α}
    (h : l.find? p = some a) :
    p a = true ∧ ∃ as bs, l = as ++ a :: bs ∧ ∀ x ∈ as, p x = false := by
  induction l with
  | nil => simp at h
  | cons c t ih =>
    by_cases hc : p c
    · rw [List.find?_cons_of_pos _ hc] at h
      cases h
      exact ⟨hc, [], t, rfl, by simp⟩
    · rw [List.find?_cons_of_neg _ hc] at h
      obtain ⟨hpa, as, bs, hl, hall⟩ := ih h
      simp only [Bool.not_eq_true] at hc
      refine ⟨hpa, c :: as, bs, by simp [hl], ?_⟩
      intro x hx
      rcases List.mem_cons.mp hx with rfl | hx2
      · exact hc
      · exact hall x hx2

/-- C8 (amended): among the deduplicated discovered `startup*` files, the
fallback returns the FIRST file whose path contains the startup token or
the lower-cased define token with its first `xx` removed as a
case-SENSITIVE substring — the selected file passes the test and every
file enumerated before it fails it; only when no file passes the test does
it return the first discovered file. -/
theorem findStartupFallback_case_sensitive_selection (ws : String)
    (p : MCUParams) (files : List String) (h : jsDedup files ≠ []) :
    ∃ f, f ∈ jsDedup files ∧
      findStartupFallback ws files p = some ⟨startupNameOf f, f, relativize ws f⟩ ∧
      ((startupSuitable p f = true ∧
          ∃ as bs, jsDedup files = as ++ f :: bs ∧
            ∀ g ∈ as, startupSuitable p g = false) ∨
        ((∀ g ∈ jsDedup files, startupSuitable p g = false) ∧
          f = (jsDedup files).headD "")) := by
  have hne : (jsDedup files).isEmpty = false := by
    cases hl : jsDedup files with
    | nil => exact absurd hl h
    | cons a t => rfl
  cases hf : (jsDedup files).find? (startupSuitable p) with
  | some f =>
    obtain ⟨hpf, as, bs, hdecomp, hall⟩ := find?_first_decomp hf
    exact ⟨f, List.mem_of_find?_eq_some hf,
      by simp [findStartupFallback, hne, hf],
      Or.inl ⟨hpf, as, bs, hdecomp, hall⟩⟩
  | none =>
    cases hl : jsDedup files with
    | nil => exact absurd hl h
    | cons a t =>
      rw [hl] at hf
      refine ⟨a, by simp [hl], ?_, Or.inr ⟨?_, by simp [hl]⟩⟩
      · simp [findStartupFallback, hl, hf]
      · intro g hg
        simpa using List.find?_eq_none.mp hf g hg

/-- Witness for C8: the first-match rule on a workspace where the first
discovered file fails the test and both the second and the third pass it —
the second (the first passing one) is selected, shown by evaluation, and
the amended theorem is applied at the same input. -/
theorem findStartupFallback_case_sensitive_selection_witness :
    jsDedup ["Src/startup_stm32f103xe.s", "A/startup_stm32f407xx.s",
        "B/startup_stm32f407xx.s"] ≠ [] ∧
    startupSuitable paramsF407 "Src/startup_stm32f103xe.s" = false ∧
    startupSuitable paramsF407 "A/startup_stm32f407xx.s" = true ∧
    startupSuitable paramsF407 "B/startup_stm32f407xx.s" = true ∧
    findStartupFallback "/w" ["Src/startup_stm32f103xe.s",
        "A/startup_stm32f407xx.s", "B/startup_stm32f407xx.s"] paramsF407 =
      some ⟨"startup_stm32f407xx", "A/startup_stm32f407xx.s",
            "A/startup_stm32f407xx.s"⟩ ∧
    (∃ f, f ∈ jsDedup ["Src/startup_stm32f103xe.s", "A/startup_stm32f407xx.s",
        "B/startup_stm32f407xx.s"] ∧
      findStartupFallback "/w" ["Src/startup_stm32f103xe.s",
          "A/startup_stm32f407xx.s", "B/startup_stm32f407xx.s"] paramsF407 =
        some ⟨startupNameOf f, f, relativize "/w" f⟩ ∧
      ((startupSuitable paramsF407 f = true ∧
          ∃ as bs, jsDedup ["Src/startup_stm32f103xe.s",
              "A/startup_stm32f407xx.s", "B/startup_stm32f407xx.s"] =
              as ++ f :: bs ∧
            ∀ g ∈ as, startupSuitable paramsF407 g = false) ∨
        ((∀ g ∈ jsDedup ["Src/startup_stm32f103xe.s",
              "A/startup_stm32f407xx.s", "B/startup_stm32f407xx.s"],
            startupSuitable paramsF407 g = false) ∧
          f = (jsDedup ["Src/startup_stm32f103xe.s", "A/startup_stm32f407xx.s",
              "B/startup_stm32f407xx.s"]).headD ""))) :=
  ⟨by decide, by decide, by decide, by decide, by decide,
    findStartupFallback_case_sensitive_selection "/w" paramsF407
      ["Src/startup_stm32f103xe.s", "A/startup_stm32f407xx.s",
       "B/startup_stm32f407xx.s"] (by decide)⟩

set_option maxRecDepth 100000 in
/-- C2: for a build file rendered from a configuration whose startup/linker
values were resolved for MCU A, once the configuration's MCU is changed to
B (whose expected startup token or expected linker name is not present in
that file), the freshness check reports `upToDate = false` with a details
record holding the current (A) startup/linker values — which do occur in
the file — and the expected (B) values derived from the configuration's new
MCU. -/
theorem checkFreshness_reports_stale_after_mcu_change
    (cfgA : ProjectConfig) (mcuB now sA lA : String)
    (hs : cfgA.startupFile = some sA) (hl : cfgA.ldscript = some lA)
    (hsA : sA ≠ "") (hlA : lA ≠ "")
    (hmiss : jsIncludes (generate cfgA now)
        ((getMCUParams (some mcuB) mcuB).startupFile ++ ".s") = false ∨
      jsIncludes (generate cfgA now) (getExpectedLinkerName mcuB) = false) :
    checkFreshness (generate cfgA now) { cfgA with mcu := mcuB } =
      ⟨false, some ⟨sA, (getMCUParams (some mcuB) mcuB).startupFile,
                    lA, getExpectedLinkerName mcuB⟩⟩ ∧
    jsIncludes (generate cfgA now) sA = true ∧
    jsIncludes (generate cfgA now) lA = true := by
  refine ⟨?_, ?_, ?_⟩
  · rcases hmiss with hm | hm <;> simp [checkFreshness, hm, hs, hl]
  · have hstart : jsOrStr cfgA.startupFile
        (getMCUParams (some cfgA.mcu) cfgA.mcu).startupFile = sA := by
      rw [hs]; simp [jsOrStr, hsA]
    unfold generate render generateContent
    rw [hstart]
    simp only [String.append_assoc]
    iterate 28 apply jsIncludes_append_left
    exact jsIncludes_self_append sA _
  · have hld : jsOrStr cfgA.ldscript "STM32F407XX_FLASH.ld" = lA := by
      rw [hl]; simp [jsOrStr, hlA]
    unfold generate render generateContent
    rw [hld]
    simp only [String.append_assoc]
    iterate 74 apply jsIncludes_append_left
    exact jsIncludes_self_append lA _

set_option maxRecDepth 400000 in
/-- Witness for C2: a build file rendered for `STM32F407VGTx` (startup
`startup_stm32f407xx`, linker `STM32F407VG_FLASH.ld`), re-checked after the
MCU is changed to `STM32F103RB`. -/
theorem checkFreshness_reports_stale_after_mcu_change_witness :
    checkFreshness
        (generate
          ⟨"P", "STM32F407VGTx", ["Core/Src"], ["Core/Inc"], [],
            some "STM32F407VG_FLASH.ld", some "/w/STM32F407VG_FLASH.ld",
            some "startup_stm32f407xx", some "/w/startup_stm32f407xx.s"⟩
          "01.01.2025, 00:00:00")
        { (⟨"P", "STM32F407VGTx", ["Core/Src"], ["Core/Inc"], [],
            some "STM32F407VG_FLASH.ld", some "/w/STM32F407VG_FLASH.ld",
            some "startup_stm32f407xx", some "/w/startup_stm32f407xx.s"⟩ :
              ProjectConfig) with mcu := "STM32F103RB" } =
      ⟨false, some ⟨"startup_stm32f407xx", "startup_stm32f103xe",
                    "STM32F407VG_FLASH.ld", "STM32F103RB_FLASH.ld"⟩⟩ ∧
    jsIncludes
      (generate
        ⟨"P", "STM32F407VGTx", ["Core/Src"], ["Core/Inc"], [],
          some "STM32F407VG_FLASH.ld", some "/w/STM32F407VG_FLASH.ld",
          some "startup_stm32f407xx", some "/w/startup_stm32f407xx.s"⟩
        "01.01.2025, 00:00:00") "startup_stm32f407xx" = true ∧
    jsIncludes
      (generate
        ⟨"P", "STM32F407VGTx", ["Core/Src"], ["Core/Inc"], [],
          some "STM32F407VG_FLASH.ld", some "/w/STM32F407VG_FLASH.ld",
          some "startup_stm32f407xx", some "/w/startup_stm32f407xx.s"⟩
        "01.01.2025, 00:00:00") "STM32F407VG_FLASH.ld" = true :=
  checkFreshness_reports_stale_after_mcu_change
    ⟨"P", "STM32F407VGTx", ["Core/Src"], ["Core/Inc"], [],
      some "STM32F407VG_FLASH.ld", some "/w/STM32F407VG_FLASH.ld",
      some "startup_stm32f407xx", some "/w/startup_stm32f407xx.s"⟩
    "STM32F103RB" "01.01.2025, 00:00:00"
    "startup_stm32f407xx" "STM32F407VG_FLASH.ld"
    rfl rfl (by decide) (by decide) (Or.inl (by decide))

end Stm32Tools

